import Mathlib

/-!
Shallow embedding of the browser session pool from
`src/browser-manager.ts` and the URL-validating navigation entry point of
the tool layer, together with proofs about the behaviour of its
operations.  JavaScript `Map`s are embedded as insertion-ordered
association lists, machine timestamps as `Nat`, and every fallible
external engine call (browser launch, browser close, page navigation) is
parametrised by an explicit outcome so that both the success path and the
failure path of the source are visible.
-/

namespace ConcurrentBrowser

/-- Capacity of the per-session console ring (`MAX_CONSOLE_LOG_ENTRIES`). -/
def MAX_CONSOLE_LOG_ENTRIES : Nat := 1000

/-- Capacity of the API-like network ring (`MAX_NETWORK_API_ENTRIES`). -/
def MAX_NETWORK_API_ENTRIES : Nat := 500

/-- Capacity of the static-asset network ring (`MAX_NETWORK_ASSET_ENTRIES`). -/
def MAX_NETWORK_ASSET_ENTRIES : Nat := 200

/-- Resource kinds routed to the asset buffer (`STATIC_RESOURCE_TYPES`). -/
def STATIC_RESOURCE_TYPES : List String :=
  ["document", "stylesheet", "image", "media", "font", "script", "texttrack", "manifest"]

/-- One console message entry (`ConsoleLogEntry` of `types.ts`). -/
structure ConsoleLogEntry where
  kind : String
  text : String
  timestamp : Nat
  locationUrl : String
  locationLine : Nat
  locationColumn : Nat
  deriving Repr, DecidableEq

/-- One network log entry (`NetworkLogEntry` of `types.ts`). -/
structure NetworkLogEntry where
  url : String
  method : String
  resourceType : String
  status : Option Nat := none
  statusText : Option String := none
  timestamp : Nat := 0
  duration : Option Nat := none
  cachedBody : Option String := none
  errorText : Option String := none
  deriving Repr, DecidableEq

/-- A registered browser session (`BrowserInstance`), with the engine
handles embedded as opaque numbers. -/
structure BrowserInstance where
  id : String
  browserHandle : Nat
  contextHandle : Nat
  pageHandle : Nat
  createdAt : Nat
  lastUsed : Nat
  isActive : Bool
  metadata : Option String := none
  consoleLogs : List ConsoleLogEntry := []
  networkApiLogs : List NetworkLogEntry := []
  networkAssetLogs : List NetworkLogEntry := []
  deriving Repr, DecidableEq

/-- Lookup in a JavaScript `Map` embedded as an insertion-ordered
association list (keys are unique in every reachable state). -/
def mapGet : List (String × α) → String → Option α
  | [], _ => none
  | p :: ps, k => if p.1 = k then some p.2 else mapGet ps k

/-- `Map.set`: update the binding in place when the key is present,
append a fresh binding otherwise (JavaScript insertion order). -/
def mapSet : List (String × α) → String → α → List (String × α)
  | [], k, v => [(k, v)]
  | p :: ps, k, v => if p.1 = k then (k, v) :: ps else p :: mapSet ps k v

/-- `Map.delete`: drop the binding for the key. -/
def mapDelete : List (String × α) → String → List (String × α)
  | [], _ => []
  | p :: ps, k => if p.1 = k then mapDelete ps k else p :: mapDelete ps k

/-- JavaScript truthiness of an optional string (`undefined` and the
empty string are falsy). -/
def jsTruthy : Option String → Bool
  | some s => !s.isEmpty
  | none => false

/-- JavaScript `a || b` on optional strings. -/
def jsOr (a b : Option String) : Option String :=
  if jsTruthy a then a else b

/-- Proxy sub-configuration (`{ server?, autoDetect? }`). -/
structure ProxyConfig where
  server : Option String := none
  autoDetect : Option Bool := none
  deriving Repr, DecidableEq

/-- The slice of a per-session `Partial<BrowserConfig>` that proxy
resolution consults. -/
structure BrowserConfigPartial where
  proxy : Option ProxyConfig := none
  deriving Repr, DecidableEq

/-- The proxy-related environment variables read by `getProxyFromEnv`. -/
structure EnvVars where
  HTTP_PROXY : Option String := none
  http_proxy : Option String := none
  HTTPS_PROXY : Option String := none
  https_proxy : Option String := none
  ALL_PROXY : Option String := none
  all_proxy : Option String := none
  deriving Repr, DecidableEq

/-- `getProxyFromEnv`: first truthy value among the HTTP-style, then the
HTTPS-style, then the catch-all variables (upper case before lower case
within each pair). -/
def getProxyFromEnv (env : EnvVars) : Option String :=
  let httpProxy := jsOr env.HTTP_PROXY env.http_proxy
  let httpsProxy := jsOr env.HTTPS_PROXY env.https_proxy
  let allProxy := jsOr env.ALL_PROXY env.all_proxy
  jsOr httpProxy (jsOr httpsProxy allProxy)

/-- `detectLocalProxy`: environment variables first; on the darwin
platform fall back to the system proxy query (embedded as an oracle
result `sysProxy`); otherwise no proxy. -/
def detectLocalProxy (env : EnvVars) (darwin : Bool) (sysProxy : Option String) :
    Option String :=
  let envProxy := getProxyFromEnv env
  if jsTruthy envProxy then envProxy
  else if darwin then
    if jsTruthy sysProxy then sysProxy else none
  else none

/-- `initializeProxy`: the process-wide detected proxy, computed once at
construction from the global config and the environment. -/
def initializeProxy (globalProxy : Option ProxyConfig) (env : EnvVars)
    (darwin : Bool) (sysProxy : Option String) : Option String :=
  if jsTruthy (globalProxy.bind (fun p => p.server)) then
    globalProxy.bind (fun p => p.server)
  else if ¬ (globalProxy.bind (fun p => p.autoDetect) = some false) then
    detectLocalProxy env darwin sysProxy
  else
    none

/-- `getEffectiveProxy`: instance config beats global/detected config;
an explicit `autoDetect: false` with no server disables the proxy. -/
def getEffectiveProxy (detectedProxy : Option String)
    (browserConfig : Option BrowserConfigPartial) : Option String :=
  if jsTruthy ((browserConfig.bind (fun c => c.proxy)).bind (fun p => p.server)) then
    (browserConfig.bind (fun c => c.proxy)).bind (fun p => p.server)
  else if (browserConfig.bind (fun c => c.proxy)).bind (fun p => p.autoDetect) = some false then
    none
  else
    detectedProxy

/-- Mutable state of a `BrowserManager`: the session registry, the
operation-lock table and the memoized detected proxy. -/
structure ManagerState where
  instances : List (String × BrowserInstance) := []
  operationLocks : List (String × Nat) := []
  maxInstances : Nat
  detectedProxy : Option String := none
  deriving Repr, DecidableEq

/-- Current lock count for an id (`operationLocks.get(id) ?? 0`). -/
def lockCount (st : ManagerState) (instanceId : String) : Nat :=
  (mapGet st.operationLocks instanceId).getD 0

/-- `acquireOperationLock`: fails (returns `false`) on an unknown id,
otherwise increments the id's lock count.  The returned release closure
of the source only captures the id, so its invocation is embedded
separately as `releaseOperationLock`. -/
def acquireOperationLock (st : ManagerState) (instanceId : String) :
    ManagerState × Bool :=
  if (mapGet st.instances instanceId).isSome then
    let current := (mapGet st.operationLocks instanceId).getD 0
    ({ st with operationLocks := mapSet st.operationLocks instanceId (current + 1) }, true)
  else
    (st, false)

/-- One invocation of the release closure returned by
`acquireOperationLock`: re-reads the current count, deletes the entry at
a count of at most one, decrements it otherwise. -/
def releaseOperationLock (st : ManagerState) (instanceId : String) : ManagerState :=
  let count := (mapGet st.operationLocks instanceId).getD 0
  if count ≤ 1 then
    { st with operationLocks := mapDelete st.operationLocks instanceId }
  else
    { st with operationLocks := mapSet st.operationLocks instanceId (count - 1) }

/-- `isInstanceLocked`. -/
def isInstanceLocked (st : ManagerState) (instanceId : String) : Bool :=
  (mapGet st.operationLocks instanceId).getD 0 > 0

/-- Generic ring-buffer append: `push` followed by
`splice(0, length - cap)` when the capacity is exceeded. -/
def pushBounded (cap : Nat) (buf : List α) (e : α) : List α :=
  let l := buf ++ [e]
  if l.length > cap then l.drop (l.length - cap) else l

/-- The `page.on('console')` listener body: append one console entry to
the session's console ring. -/
def pushConsoleLog (buf : List ConsoleLogEntry) (e : ConsoleLogEntry) :
    List ConsoleLogEntry :=
  pushBounded MAX_CONSOLE_LOG_ENTRIES buf e

/-- The `page.on('response')` / `page.on('requestfailed')` listener
bodies: route one network entry to the asset or API ring by resource
type and append it under that ring's capacity. -/
def routeNetworkEvent (inst : BrowserInstance) (e : NetworkLogEntry) : BrowserInstance :=
  if STATIC_RESOURCE_TYPES.contains e.resourceType then
    { inst with networkAssetLogs :=
        pushBounded MAX_NETWORK_ASSET_ENTRIES inst.networkAssetLogs e }
  else
    { inst with networkApiLogs :=
        pushBounded MAX_NETWORK_API_ENTRIES inst.networkApiLogs e }

/-- Rewrite one registered instance in place, preserving registry order. -/
def updateInstance (st : ManagerState) (instanceId : String)
    (f : BrowserInstance → BrowserInstance) : ManagerState :=
  { st with instances :=
      st.instances.map (fun p => if p.1 = instanceId then (p.1, f p.2) else p) }

/-- Result of `createInstance` (`ToolResult` with its `data` fields). -/
structure CreateResult where
  success : Bool
  error : Option String := none
  instanceId : Option String := none
  proxy : Option String := none
  deriving Repr, DecidableEq

/-- `createInstance`: admission check against `maxInstances`, then the
engine launch (outcome embedded as `launchOk`), then registration of the
fresh session.  On launch failure nothing is registered. -/
def createInstance (st : ManagerState) (newId : String)
    (browserConfig : Option BrowserConfigPartial) (metadata : Option String)
    (launchOk : Bool) (now : Nat) : ManagerState × CreateResult :=
  if st.instances.length ≥ st.maxInstances then
    (st, { success := false,
           error := some ("Maximum number of instances (" ++ toString st.maxInstances
             ++ ") reached") })
  else if ¬ launchOk then
    (st, { success := false, error := some "Failed to create browser instance" })
  else
    let effectiveProxy := getEffectiveProxy st.detectedProxy browserConfig
    let inst : BrowserInstance :=
      { id := newId
        browserHandle := now
        contextHandle := now
        pageHandle := now
        createdAt := now
        lastUsed := now
        isActive := true
        metadata := metadata }
    ({ st with instances := mapSet st.instances newId inst },
     { success := true, instanceId := some newId, proxy := effectiveProxy })

/-- `getInstance`: fetch by id, refreshing `lastUsed` on a hit. -/
def getInstance (st : ManagerState) (instanceId : String) (now : Nat) :
    ManagerState × Option BrowserInstance :=
  match mapGet st.instances instanceId with
  | none => (st, none)
  | some inst =>
      (updateInstance st instanceId (fun i => { i with lastUsed := now }),
       some { inst with lastUsed := now })

/-- Options of `getConsoleLogs`. -/
structure ConsoleLogsOptions where
  kind : Option String := none
  limit : Option Int := none
  clear : Option Bool := none
  deriving Repr, DecidableEq

/-- Result of `getConsoleLogs`. -/
structure ConsoleLogsResult where
  success : Bool
  error : Option String := none
  logs : List ConsoleLogEntry := []
  totalEntries : Nat := 0
  returnedEntries : Nat := 0
  filtered : Bool := false
  cleared : Bool := false
  instanceId : Option String := none
  deriving Repr, DecidableEq

/-- `getConsoleLogs`: snapshot, optional kind filter, optional tail
limit (`slice(-limit)`), then the optional clear of the live buffer
after the response data has been copied. -/
def getConsoleLogs (st : ManagerState) (instanceId : String)
    (options : ConsoleLogsOptions) : ManagerState × ConsoleLogsResult :=
  match mapGet st.instances instanceId with
  | none =>
      (st, { success := false,
             error := some ("Instance " ++ instanceId ++ " not found") })
  | some inst =>
      let consoleLogs := inst.consoleLogs
      let totalEntries := consoleLogs.length
      let filtered := jsTruthy options.kind
      let logs :=
        if jsTruthy options.kind then
          consoleLogs.filter (fun e => some e.kind = options.kind)
        else consoleLogs
      let logs :=
        match options.limit with
        | some l => if 0 < l then logs.drop (logs.length - l.toNat) else logs
        | none => logs
      let returnedEntries := logs.length
      let cleared := options.clear = some true
      let result := logs
      let st' :=
        if cleared then updateInstance st instanceId (fun i => { i with consoleLogs := [] })
        else st
      (st', { success := true, logs := result, totalEntries := totalEntries,
              returnedEntries := returnedEntries, filtered := filtered,
              cleared := cleared, instanceId := some instanceId })

/-- Options of `getNetworkLogs`. -/
structure NetworkLogsOptions where
  includeAssets : Option Bool := none
  resourceType : Option String := none
  limit : Option Int := none
  clear : Option Bool := none
  deriving Repr, DecidableEq

/-- Result of `getNetworkLogs`. -/
structure NetworkLogsResult where
  success : Bool
  error : Option String := none
  apiLogs : List NetworkLogEntry := []
  totalApiEntries : Nat := 0
  returnedApiEntries : Nat := 0
  filtered : Bool := false
  cleared : Bool := false
  assetLogs : Option (List NetworkLogEntry) := none
  totalAssetEntries : Option Nat := none
  returnedAssetEntries : Option Nat := none
  instanceId : Option String := none
  deriving Repr, DecidableEq

/-- Strip the cached bodies from listed entries. -/
def stripBody (entries : List NetworkLogEntry) : List NetworkLogEntry :=
  entries.map (fun e => { e with cachedBody := none })

/-- `getNetworkLogs`: the same shape over the two network rings; the
asset ring is included and cleared only under `includeAssets`. -/
def getNetworkLogs (st : ManagerState) (instanceId : String)
    (options : NetworkLogsOptions) : ManagerState × NetworkLogsResult :=
  match mapGet st.instances instanceId with
  | none =>
      (st, { success := false,
             error := some ("Instance " ++ instanceId ++ " not found") })
  | some inst =>
      let apiLogs := inst.networkApiLogs
      let assetLogs := inst.networkAssetLogs
      let totalApiEntries := apiLogs.length
      let totalAssetEntries := assetLogs.length
      let includeAssets := options.includeAssets = some true
      let filteredApiLogs := apiLogs
      let filteredAssetLogs := if includeAssets then assetLogs else []
      let filtered := jsTruthy options.resourceType
      let filteredApiLogs :=
        if jsTruthy options.resourceType then
          filteredApiLogs.filter (fun e => some e.resourceType = options.resourceType)
        else filteredApiLogs
      let filteredAssetLogs :=
        if jsTruthy options.resourceType then
          filteredAssetLogs.filter (fun e => some e.resourceType = options.resourceType)
        else filteredAssetLogs
      let filteredApiLogs :=
        match options.limit with
        | some l => if 0 < l then filteredApiLogs.drop (filteredApiLogs.length - l.toNat)
                    else filteredApiLogs
        | none => filteredApiLogs
      let filteredAssetLogs :=
        match options.limit with
        | some l => if 0 < l then filteredAssetLogs.drop (filteredAssetLogs.length - l.toNat)
                    else filteredAssetLogs
        | none => filteredAssetLogs
      let returnedApiEntries := filteredApiLogs.length
      let returnedAssetEntries := if includeAssets then some filteredAssetLogs.length else none
      let cleared := options.clear = some true
      let resultApiLogs := stripBody filteredApiLogs
      let resultAssetLogs := if includeAssets then some (stripBody filteredAssetLogs) else none
      let st' :=
        if cleared then
          updateInstance st instanceId (fun i =>
            if includeAssets then { i with networkApiLogs := [], networkAssetLogs := [] }
            else { i with networkApiLogs := [] })
        else st
      (st', { success := true, apiLogs := resultApiLogs,
              totalApiEntries := totalApiEntries,
              returnedApiEntries := returnedApiEntries,
              filtered := filtered, cleared := cleared,
              assetLogs := resultAssetLogs,
              totalAssetEntries := if includeAssets then some totalAssetEntries else none,
              returnedAssetEntries := returnedAssetEntries,
              instanceId := some instanceId })

/-- Result of `getResponseBody`. -/
structure ResponseBodyResult where
  success : Bool
  error : Option String := none
  found : Option Bool := none
  body : Option String := none
  contentLength : Option Nat := none
  instanceId : Option String := none
  deriving Repr, DecidableEq

/-- The match predicate of `getResponseBody`. -/
def bodyMatch (method url : String) (e : NetworkLogEntry) : Bool :=
  e.method = method && e.url = url && e.cachedBody.isSome

/-- `getResponseBody`: scan the API ring then the asset ring, keep
overwriting the candidate, and report `found := false` as a success when
no entry matches. -/
def getResponseBody (st : ManagerState) (instanceId method url : String) :
    ManagerState × ResponseBodyResult :=
  match mapGet st.instances instanceId with
  | none =>
      (st, { success := false,
             error := some ("Instance " ++ instanceId ++ " not found") })
  | some inst =>
      let allLogs := inst.networkApiLogs ++ inst.networkAssetLogs
      let found :=
        allLogs.foldl (fun acc e => if bodyMatch method url e then some e else acc) none
      match found with
      | none =>
          (st, { success := true, found := some false, instanceId := some instanceId })
      | some m =>
          (st, { success := true, found := some true, body := m.cachedBody,
                 contentLength := (m.cachedBody.map (fun b => b.length)),
                 instanceId := some instanceId })

/-- Result of `closeInstance`. -/
structure CloseResult where
  success : Bool
  error : Option String := none
  closed : Option Bool := none
  instanceId : Option String := none
  deriving Repr, DecidableEq

/-- `closeInstance`: `NotFound` on an unknown id; otherwise the engine
teardown (outcome `closeOk`) is awaited and only a completed teardown
reaches the registry delete — a throwing teardown is caught and reported
with the entry still registered. -/
def closeInstance (st : ManagerState) (closeOk : String → Bool)
    (instanceId : String) : ManagerState × CloseResult :=
  match mapGet st.instances instanceId with
  | none =>
      (st, { success := false,
             error := some ("Instance " ++ instanceId ++ " not found") })
  | some _ =>
      if closeOk instanceId then
        ({ st with instances := mapDelete st.instances instanceId },
         { success := true, closed := some true, instanceId := some instanceId })
      else
        (st, { success := false, error := some "Failed to close instance" })

/-- Result of `closeAllInstances`. -/
structure CloseAllResult where
  success : Bool
  error : Option String := none
  closedCount : Nat := 0
  deriving Repr, DecidableEq

/-- `closeAllInstances`: snapshot the registry, tear each session down
independently (`Promise.allSettled`) deleting its entry only after its
own teardown completed, and report the snapshot length as the count. -/
def closeAllInstances (st : ManagerState) (closeOk : String → Bool) :
    ManagerState × CloseAllResult :=
  let entries := st.instances
  let st' := entries.foldl
    (fun s p =>
      if closeOk p.1 then { s with instances := mapDelete s.instances p.1 } else s)
    st
  (st', { success := true, closedCount := entries.length })

/-- Characters allowed after the first character of a URL scheme. -/
def isSchemeChar (c : Char) : Bool :=
  c.isAlphanum || c = '+' || c = '-' || c = '.'

/-- Split a character list at the first colon. -/
def takeScheme : List Char → Option (List Char × List Char)
  | [] => none
  | c :: cs =>
      if c = ':' then some ([], cs)
      else (takeScheme cs).map (fun p => (c :: p.1, p.2))

/-- The `protocol` of the WHATWG `URL` constructor used by
`validateUrl`: the scheme before the first colon, lower-cased, with a
trailing colon; `none` when the constructor throws (no valid scheme). -/
def parseProtocol (url : String) : Option String :=
  match takeScheme url.toList with
  | none => none
  | some (s, _) =>
      match s with
      | [] => none
      | c :: rest =>
          if c.isAlpha && rest.all isSchemeChar then
            some (String.mk ((c :: rest).map Char.toLower) ++ ":")
          else none

/-- `validateUrl` of the tool layer: throws (returns an error message)
unless the protocol is `http:` or `https:`. -/
def validateUrl (url : String) : Option String :=
  match parseProtocol url with
  | none => some "Invalid URL"
  | some p =>
      if ¬ (p = "http:") ∧ ¬ (p = "https:") then
        some ("Unsupported URL protocol: " ++ p ++ " — only http: and https: are allowed")
      else none

/-- Result of `navigate`. -/
structure NavigateResult where
  success : Bool
  error : Option String := none
  instanceId : Option String := none
  deriving Repr, DecidableEq

/-- `navigate` of the tool layer: URL validation, then the instance
fetch, then the engine `goto` call (outcome `navOk`).  The final `Bool`
records whether the external engine was called. -/
def navigate (st : ManagerState) (instanceId url : String) (navOk : Bool)
    (now : Nat) : ManagerState × NavigateResult × Bool :=
  match validateUrl url with
  | some msg =>
      (st, { success := false, error := some ("Invalid URL: " ++ msg) }, false)
  | none =>
      match getInstance st instanceId now with
      | (st', none) =>
          (st', { success := false,
                  error := some ("Instance " ++ instanceId ++ " not found") }, false)
      | (st', some _) =>
          if navOk then
            (st', { success := true, instanceId := some instanceId }, true)
          else
            (st', { success := false, error := some "Navigation failed",
                    instanceId := some instanceId }, true)

/-- One pool operation, for statements over arbitrary call sequences. -/
inductive PoolOp where
  | create (newId : String) (cfg : Option BrowserConfigPartial)
      (metadata : Option String) (launchOk : Bool) (now : Nat)
  | close (instanceId : String) (closeOk : String → Bool)
  | closeAll (closeOk : String → Bool)
  | fetch (instanceId : String) (now : Nat)
  | consoleLogs (instanceId : String) (options : ConsoleLogsOptions)
  | networkLogs (instanceId : String) (options : NetworkLogsOptions)
  | responseBody (instanceId method url : String)
  | acquireLock (instanceId : String)
  | releaseLock (instanceId : String)

/-- Whether a pool operation is a `createInstance` call. -/
def PoolOp.isCreate : PoolOp → Bool
  | .create _ _ _ _ _ => true
  | _ => false

/-- State transition of one pool operation (results discarded). -/
def applyOp (st : ManagerState) : PoolOp → ManagerState
  | .create newId cfg metadata launchOk now =>
      (createInstance st newId cfg metadata launchOk now).1
  | .close instanceId closeOk => (closeInstance st closeOk instanceId).1
  | .closeAll closeOk => (closeAllInstances st closeOk).1
  | .fetch instanceId now => (getInstance st instanceId now).1
  | .consoleLogs instanceId options => (getConsoleLogs st instanceId options).1
  | .networkLogs instanceId options => (getNetworkLogs st instanceId options).1
  | .responseBody instanceId method url => (getResponseBody st instanceId method url).1
  | .acquireLock instanceId => (acquireOperationLock st instanceId).1
  | .releaseLock instanceId => releaseOperationLock st instanceId

/-- State after a sequence of pool operations. -/
def applyOps (st : ManagerState) (ops : List PoolOp) : ManagerState :=
  ops.foldl applyOp st

/-! ## Ring-buffer lemmas -/

lemma pushBounded_eq_drop (cap : Nat) (buf : List α) (e : α) :
    pushBounded cap buf e = (buf ++ [e]).drop ((buf ++ [e]).length - cap) := by
  unfold pushBounded
  by_cases h : (buf ++ [e]).length > cap
  · simp only [h, if_pos]
  · have h0 : (buf ++ [e]).length - cap = 0 := Nat.sub_eq_zero_of_le (Nat.le_of_not_lt h)
    simp only [if_neg h, h0, List.drop_zero]

lemma length_pushBounded_le (cap : Nat) (buf : List α) (e : α) :
    (pushBounded cap buf e).length ≤ cap ⊔ buf.length := by
  rw [pushBounded_eq_drop]
  simp only [List.length_drop, List.length_append, List.length_singleton]
  omega

lemma foldl_pushBounded (cap : Nat) (msgs : List α) :
    ∀ init : List α, init.length ≤ cap →
      msgs.foldl (pushBounded cap) init
        = (init ++ msgs).drop ((init ++ msgs).length - cap) := by
  induction msgs with
  | nil =>
      intro init h
      simp [Nat.sub_eq_zero_of_le h]
  | cons m ms ih =>
      intro init h
      have hlen : (pushBounded cap init m).length ≤ cap := by
        have := length_pushBounded_le cap init m
        omega
      rw [List.foldl_cons, ih (pushBounded cap init m) hlen, pushBounded_eq_drop]
      have hk : (init ++ [m]).length - cap ≤ (init ++ [m]).length := Nat.sub_le _ _
      rw [← List.drop_append_of_le_length hk, List.drop_drop]
      have hlist : init ++ m :: ms = (init ++ [m]) ++ ms := by simp
      rw [hlist]
      congr 1
      simp only [List.length_append, List.length_drop, List.length_singleton]
      omega

lemma length_foldl_pushBounded (cap : Nat) (msgs : List α) (init : List α)
    (h : init.length ≤ cap) :
    (msgs.foldl (pushBounded cap) init).length ≤ cap := by
  rw [foldl_pushBounded cap msgs init h]
  simp only [List.length_drop]
  omega

/-! ## Association-list map lemmas -/

lemma mapGet_nil (k : String) : mapGet ([] : List (String × α)) k = none := rfl

lemma mapGet_mapDelete_self (m : List (String × α)) (k : String) :
    mapGet (mapDelete m k) k = none := by
  induction m with
  | nil => rfl
  | cons p ps ih =>
      by_cases h : p.1 = k
      · simpa [mapDelete, h] using ih
      · simpa [mapDelete, mapGet, h] using ih

lemma mapGet_mapDelete_ne (m : List (String × α)) (k j : String) (h : ¬ j = k) :
    mapGet (mapDelete m k) j = mapGet m j := by
  have hkj : ¬ k = j := fun hh => h hh.symm
  induction m with
  | nil => rfl
  | cons p ps ih =>
      by_cases hp : p.1 = k
      · simpa [mapDelete, mapGet, hp, hkj] using ih
      · by_cases hpj : p.1 = j
        · simp [mapDelete, mapGet, hp, hpj, h]
        · simpa [mapDelete, mapGet, hp, hpj, h] using ih

lemma mapGet_mapSet_self (m : List (String × α)) (k : String) (v : α) :
    mapGet (mapSet m k v) k = some v := by
  induction m with
  | nil => simp [mapSet, mapGet]
  | cons p ps ih =>
      by_cases hp : p.1 = k
      · simp [mapSet, mapGet, hp]
      · simpa [mapSet, mapGet, hp] using ih

lemma mapGet_mapSet_ne (m : List (String × α)) (k j : String) (v : α) (h : ¬ j = k) :
    mapGet (mapSet m k v) j = mapGet m j := by
  have hkj : ¬ k = j := fun hh => h hh.symm
  induction m with
  | nil => simp [mapSet, mapGet, hkj]
  | cons p ps ih =>
      by_cases hp : p.1 = k
      · simp [mapSet, mapGet, hp, hkj]
      · by_cases hpj : p.1 = j
        · simp [mapSet, mapGet, hp, hpj, h]
        · simpa [mapSet, mapGet, hp, hpj, h] using ih

lemma mapSet_length (m : List (String × α)) (k : String) (v : α) :
    (mapSet m k v).length ≤ m.length + 1 := by
  induction m with
  | nil => simp [mapSet]
  | cons p ps ih =>
      by_cases hp : p.1 = k
      · simp [mapSet, hp]
      · simpa [mapSet, hp, Nat.succ_le_succ_iff] using ih

lemma mapDelete_length_le (m : List (String × α)) (k : String) :
    (mapDelete m k).length ≤ m.length := by
  induction m with
  | nil => simp [mapDelete]
  | cons p ps ih =>
      by_cases hp : p.1 = k
      · simp only [mapDelete, hp, if_pos]
        exact Nat.le_succ_of_le ih
      · simpa [mapDelete, hp, Nat.succ_le_succ_iff] using ih

lemma mapGet_map_update (m : List (String × α)) (k j : String) (f : α → α) :
    mapGet (m.map (fun p => if p.1 = k then (p.1, f p.2) else p)) j
      = if j = k then (mapGet m j).map f else mapGet m j := by
  induction m with
  | nil => by_cases h : j = k <;> simp [mapGet, h]
  | cons p ps ih =>
      by_cases hp : p.1 = k
      · by_cases hj : j = k
        · subst hj
          simp [mapGet, hp]
        · have hkj : ¬ k = j := fun hh => hj hh.symm
          simpa [mapGet, hp, hj, hkj] using ih
      · by_cases hpj : p.1 = j
        · have hj : ¬ j = k := by rw [← hpj]; exact hp
          simp [mapGet, hp, hpj, hj]
        · simpa [mapGet, hp, hpj] using ih

lemma mapGet_updateInstance (st : ManagerState) (k j : String)
    (f : BrowserInstance → BrowserInstance) :
    mapGet (updateInstance st k f).instances j
      = if j = k then (mapGet st.instances j).map f else mapGet st.instances j := by
  unfold updateInstance
  exact mapGet_map_update st.instances k j f

lemma mapDelete_idem (m : List (String × α)) (k : String) :
    mapDelete (mapDelete m k) k = mapDelete m k := by
  induction m with
  | nil => rfl
  | cons p ps ih =>
      by_cases hp : p.1 = k
      · simpa [mapDelete, hp] using ih
      · simpa [mapDelete, hp] using ih

lemma mapGet_mapDelete_of_none (m : List (String × α)) (k j : String)
    (h : mapGet m k = none) : mapGet (mapDelete m j) k = none := by
  by_cases hkj : k = j
  · subst hkj; exact mapGet_mapDelete_self m k
  · rw [mapGet_mapDelete_ne m j k hkj]; exact h

/-! ## State-shape lemmas for the pool operations -/

lemma updateInstance_maxInstances (st : ManagerState) (k : String)
    (f : BrowserInstance → BrowserInstance) :
    (updateInstance st k f).maxInstances = st.maxInstances := rfl

lemma updateInstance_length (st : ManagerState) (k : String)
    (f : BrowserInstance → BrowserInstance) :
    (updateInstance st k f).instances.length = st.instances.length := by
  simp [updateInstance]

lemma getInstance_fst (st : ManagerState) (instanceId : String) (now : Nat) :
    (getInstance st instanceId now).1 = st ∨
    (getInstance st instanceId now).1
      = updateInstance st instanceId (fun i => { i with lastUsed := now }) := by
  unfold getInstance
  cases mapGet st.instances instanceId
  · exact Or.inl rfl
  · exact Or.inr rfl

lemma getConsoleLogs_fst (st : ManagerState) (instanceId : String)
    (options : ConsoleLogsOptions) :
    (getConsoleLogs st instanceId options).1 = st ∨
    (getConsoleLogs st instanceId options).1
      = updateInstance st instanceId (fun i => { i with consoleLogs := [] }) := by
  unfold getConsoleLogs
  cases mapGet st.instances instanceId
  · exact Or.inl rfl
  · by_cases hc : options.clear = some true
    · simp only [hc]
      exact Or.inr (by simp)
    · simp only [hc]
      exact Or.inl (by simp)

lemma getNetworkLogs_fst (st : ManagerState) (instanceId : String)
    (options : NetworkLogsOptions) :
    (getNetworkLogs st instanceId options).1 = st ∨
    (getNetworkLogs st instanceId options).1
      = updateInstance st instanceId (fun i =>
          if options.includeAssets = some true then
            { i with networkApiLogs := [], networkAssetLogs := [] }
          else { i with networkApiLogs := [] }) := by
  unfold getNetworkLogs
  cases mapGet st.instances instanceId
  · exact Or.inl rfl
  · by_cases hc : options.clear = some true
    · simp only [hc]
      exact Or.inr (by simp)
    · simp only [hc]
      exact Or.inl (by simp)

lemma getResponseBody_fst (st : ManagerState) (instanceId method url : String) :
    (getResponseBody st instanceId method url).1 = st := by
  unfold getResponseBody
  cases mapGet st.instances instanceId
  · rfl
  · simp only []
    cases (List.foldl (fun acc e => if bodyMatch method url e then some e else acc)
        none _ : Option NetworkLogEntry)
    · rfl
    · rfl

lemma acquireOperationLock_instances (st : ManagerState) (instanceId : String) :
    ((acquireOperationLock st instanceId).1).instances = st.instances := by
  unfold acquireOperationLock
  by_cases h : (mapGet st.instances instanceId).isSome <;> simp [h]

lemma acquireOperationLock_maxInstances (st : ManagerState) (instanceId : String) :
    ((acquireOperationLock st instanceId).1).maxInstances = st.maxInstances := by
  unfold acquireOperationLock
  by_cases h : (mapGet st.instances instanceId).isSome <;> simp [h]

lemma releaseOperationLock_instances (st : ManagerState) (instanceId : String) :
    (releaseOperationLock st instanceId).instances = st.instances := by
  unfold releaseOperationLock
  by_cases h : (mapGet st.operationLocks instanceId).getD 0 ≤ 1 <;> simp [h]

lemma releaseOperationLock_maxInstances (st : ManagerState) (instanceId : String) :
    (releaseOperationLock st instanceId).maxInstances = st.maxInstances := by
  unfold releaseOperationLock
  by_cases h : (mapGet st.operationLocks instanceId).getD 0 ≤ 1 <;> simp [h]

lemma closeInstance_fst (st : ManagerState) (closeOk : String → Bool)
    (instanceId : String) :
    (closeInstance st closeOk instanceId).1 = st ∨
    (closeInstance st closeOk instanceId).1
      = { st with instances := mapDelete st.instances instanceId } := by
  unfold closeInstance
  cases mapGet st.instances instanceId
  · exact Or.inl rfl
  · by_cases h : closeOk instanceId <;> simp [h]

/-- The per-entry step of `closeAllInstances`. -/
def closeAllStep (closeOk : String → Bool) (s : ManagerState)
    (p : String × BrowserInstance) : ManagerState :=
  if closeOk p.1 then { s with instances := mapDelete s.instances p.1 } else s

lemma closeAllInstances_fst (st : ManagerState) (closeOk : String → Bool) :
    (closeAllInstances st closeOk).1
      = st.instances.foldl (closeAllStep closeOk) st := rfl

lemma closeAllStep_maxInstances (closeOk : String → Bool) (s : ManagerState)
    (p : String × BrowserInstance) :
    (closeAllStep closeOk s p).maxInstances = s.maxInstances := by
  unfold closeAllStep
  by_cases h : closeOk p.1 <;> simp [h]

lemma closeAllStep_length (closeOk : String → Bool) (s : ManagerState)
    (p : String × BrowserInstance) :
    (closeAllStep closeOk s p).instances.length ≤ s.instances.length := by
  unfold closeAllStep
  by_cases h : closeOk p.1
  · simpa [h] using mapDelete_length_le s.instances p.1
  · simp [h]

lemma closeAllFold_maxInstances (closeOk : String → Bool)
    (l : List (String × BrowserInstance)) :
    ∀ s : ManagerState, (l.foldl (closeAllStep closeOk) s).maxInstances = s.maxInstances := by
  induction l with
  | nil => intro s; rfl
  | cons p ps ih =>
      intro s
      rw [List.foldl_cons, ih]
      exact closeAllStep_maxInstances closeOk s p

lemma closeAllFold_length (closeOk : String → Bool)
    (l : List (String × BrowserInstance)) :
    ∀ s : ManagerState,
      (l.foldl (closeAllStep closeOk) s).instances.length ≤ s.instances.length := by
  induction l with
  | nil => intro s; exact Nat.le_refl _
  | cons p ps ih =>
      intro s
      rw [List.foldl_cons]
      exact Nat.le_trans (ih _) (closeAllStep_length closeOk s p)

lemma closeAllFold_get_false (closeOk : String → Bool)
    (l : List (String × BrowserInstance)) :
    ∀ (s : ManagerState) (k : String), closeOk k = false →
      mapGet ((l.foldl (closeAllStep closeOk) s)).instances k = mapGet s.instances k := by
  induction l with
  | nil => intro s k _; rfl
  | cons p ps ih =>
      intro s k hk
      rw [List.foldl_cons, ih _ k hk]
      unfold closeAllStep
      by_cases hp : closeOk p.1
      · have hne : ¬ k = p.1 := by
          intro hh; rw [hh] at hk; rw [hk] at hp; exact Bool.false_ne_true hp
        simp only [hp, if_pos]
        exact mapGet_mapDelete_ne s.instances p.1 k hne
      · simp [hp]

lemma closeAllFold_get_none (closeOk : String → Bool)
    (l : List (String × BrowserInstance)) :
    ∀ (s : ManagerState) (k : String), closeOk k = true →
      (k ∈ l.map (fun p => p.1) ∨ mapGet s.instances k = none) →
      mapGet ((l.foldl (closeAllStep closeOk) s)).instances k = none := by
  induction l with
  | nil =>
      intro s k _ hmem
      rcases hmem with hmem | hnone
      · simp at hmem
      · exact hnone
  | cons p ps ih =>
      intro s k hk hmem
      rw [List.foldl_cons]
      rcases hmem with hmem | hnone
      · rw [List.map_cons, List.mem_cons] at hmem
        rcases hmem with hkp | hmem'
        · refine ih _ k hk (Or.inr ?_)
          unfold closeAllStep
          rw [← hkp]
          simp only [hk, if_pos]
          exact mapGet_mapDelete_self s.instances k
        · exact ih _ k hk (Or.inl hmem')
      · refine ih _ k hk (Or.inr ?_)
        unfold closeAllStep
        by_cases hp : closeOk p.1
        · simp only [hp, if_pos]
          exact mapGet_mapDelete_of_none s.instances k p.1 hnone
        · simpa [hp] using hnone

lemma createInstance_at_capacity (st : ManagerState) (newId : String)
    (cfg : Option BrowserConfigPartial) (metadata : Option String)
    (launchOk : Bool) (now : Nat) (h : st.instances.length ≥ st.maxInstances) :
    createInstance st newId cfg metadata launchOk now
      = (st, { success := false,
               error := some ("Maximum number of instances ("
                 ++ toString st.maxInstances ++ ") reached") }) := by
  unfold createInstance
  simp [h]

lemma createInstance_maxInstances (st : ManagerState) (newId : String)
    (cfg : Option BrowserConfigPartial) (metadata : Option String)
    (launchOk : Bool) (now : Nat) :
    ((createInstance st newId cfg metadata launchOk now).1).maxInstances
      = st.maxInstances := by
  unfold createInstance
  by_cases hfull : st.instances.length ≥ st.maxInstances
  · simp [hfull]
  · by_cases hok : launchOk <;> simp [hfull, hok]

lemma createInstance_length_le (st : ManagerState) (newId : String)
    (cfg : Option BrowserConfigPartial) (metadata : Option String)
    (launchOk : Bool) (now : Nat) (h : st.instances.length ≤ st.maxInstances) :
    ((createInstance st newId cfg metadata launchOk now).1).instances.length
      ≤ st.maxInstances := by
  unfold createInstance
  by_cases hfull : st.instances.length ≥ st.maxInstances
  · simpa [hfull] using h
  · by_cases hok : launchOk
    · simp only [hfull, hok, if_neg, not_true, if_pos, not_false_eq_true]
      refine Nat.le_trans (mapSet_length st.instances newId _) ?_
      omega
    · simpa [hfull, hok] using h

lemma applyOp_maxInstances (st : ManagerState) (op : PoolOp) :
    (applyOp st op).maxInstances = st.maxInstances := by
  cases op with
  | create newId cfg metadata launchOk now =>
      exact createInstance_maxInstances st newId cfg metadata launchOk now
  | close instanceId closeOk =>
      show ((closeInstance st closeOk instanceId).1).maxInstances = st.maxInstances
      rcases closeInstance_fst st closeOk instanceId with h | h <;> rw [h]
  | closeAll closeOk =>
      show ((closeAllInstances st closeOk).1).maxInstances = st.maxInstances
      rw [closeAllInstances_fst]
      exact closeAllFold_maxInstances closeOk st.instances st
  | fetch instanceId now =>
      show ((getInstance st instanceId now).1).maxInstances = st.maxInstances
      rcases getInstance_fst st instanceId now with h | h <;> rw [h]
      rfl
  | consoleLogs instanceId options =>
      show ((getConsoleLogs st instanceId options).1).maxInstances = st.maxInstances
      rcases getConsoleLogs_fst st instanceId options with h | h <;> rw [h]
      rfl
  | networkLogs instanceId options =>
      show ((getNetworkLogs st instanceId options).1).maxInstances = st.maxInstances
      rcases getNetworkLogs_fst st instanceId options with h | h <;> rw [h]
      rfl
  | responseBody instanceId method url =>
      show ((getResponseBody st instanceId method url).1).maxInstances = st.maxInstances
      rw [getResponseBody_fst]
  | acquireLock instanceId => exact acquireOperationLock_maxInstances st instanceId
  | releaseLock instanceId => exact releaseOperationLock_maxInstances st instanceId

lemma applyOp_length_nonCreate (st : ManagerState) (op : PoolOp)
    (h : op.isCreate = false) :
    (applyOp st op).instances.length ≤ st.instances.length := by
  cases op with
  | create newId cfg metadata launchOk now => simp [PoolOp.isCreate] at h
  | close instanceId closeOk =>
      show ((closeInstance st closeOk instanceId).1).instances.length
        ≤ st.instances.length
      rcases closeInstance_fst st closeOk instanceId with hf | hf <;> rw [hf]
      exact mapDelete_length_le st.instances instanceId
  | closeAll closeOk =>
      show ((closeAllInstances st closeOk).1).instances.length ≤ st.instances.length
      rw [closeAllInstances_fst]
      exact closeAllFold_length closeOk st.instances st
  | fetch instanceId now =>
      show ((getInstance st instanceId now).1).instances.length ≤ st.instances.length
      rcases getInstance_fst st instanceId now with hf | hf <;> rw [hf]
      rw [updateInstance_length]
  | consoleLogs instanceId options =>
      show ((getConsoleLogs st instanceId options).1).instances.length
        ≤ st.instances.length
      rcases getConsoleLogs_fst st instanceId options with hf | hf <;> rw [hf]
      rw [updateInstance_length]
  | networkLogs instanceId options =>
      show ((getNetworkLogs st instanceId options).1).instances.length
        ≤ st.instances.length
      rcases getNetworkLogs_fst st instanceId options with hf | hf <;> rw [hf]
      rw [updateInstance_length]
  | responseBody instanceId method url =>
      show ((getResponseBody st instanceId method url).1).instances.length
        ≤ st.instances.length
      rw [getResponseBody_fst]
  | acquireLock instanceId =>
      show ((acquireOperationLock st instanceId).1).instances.length
        ≤ st.instances.length
      rw [acquireOperationLock_instances]
  | releaseLock instanceId =>
      show (releaseOperationLock st instanceId).instances.length ≤ st.instances.length
      rw [releaseOperationLock_instances]

lemma applyOp_bound (st : ManagerState) (op : PoolOp)
    (h : st.instances.length ≤ st.maxInstances) :
    (applyOp st op).instances.length ≤ st.maxInstances := by
  cases hc : op.isCreate with
  | true =>
      cases op with
      | create newId cfg metadata launchOk now =>
          exact createInstance_length_le st newId cfg metadata launchOk now h
      | _ => simp [PoolOp.isCreate] at hc
  | false => exact Nat.le_trans (applyOp_length_nonCreate st op hc) h

lemma applyOps_bound (ops : List PoolOp) :
    ∀ st : ManagerState, st.instances.length ≤ st.maxInstances →
      (applyOps st ops).instances.length ≤ st.maxInstances ∧
      (applyOps st ops).maxInstances = st.maxInstances := by
  induction ops with
  | nil => intro st h; exact ⟨h, rfl⟩
  | cons op ops ih =>
      intro st h
      have h1 := applyOp_bound st op h
      have h2 := applyOp_maxInstances st op
      have h3 := ih (applyOp st op) (by rw [h2]; exact h1)
      refine ⟨?_, ?_⟩
      · show (applyOps (applyOp st op) ops).instances.length ≤ st.maxInstances
        rw [← h2]
        exact h3.1
      · show (applyOps (applyOp st op) ops).maxInstances = st.maxInstances
        rw [h3.2, h2]

/-! ## Claim theorems -/

/-- C2: over every sequence of pool operations the registry size never
exceeds the admission ceiling `maxInstances`; `createInstance` is the
only operation that can grow the registry (every other operation leaves
the size at most what it was); and a create attempted at the ceiling
fails with the capacity error carrying the ceiling value, registering
nothing. -/
theorem admission_ceiling_invariant (st : ManagerState)
    (h : st.instances.length ≤ st.maxInstances) :
    (∀ ops : List PoolOp, (applyOps st ops).instances.length ≤ st.maxInstances) ∧
    (∀ op : PoolOp, op.isCreate = false →
      (applyOp st op).instances.length ≤ st.instances.length) ∧
    (st.instances.length = st.maxInstances →
      ∀ (newId : String) (cfg : Option BrowserConfigPartial)
        (metadata : Option String) (launchOk : Bool) (now : Nat),
        createInstance st newId cfg metadata launchOk now
          = (st, { success := false,
                   error := some ("Maximum number of instances ("
                     ++ toString st.maxInstances ++ ") reached") })) := by
  refine ⟨fun ops => (applyOps_bound ops st h).1,
          fun op hop => applyOp_length_nonCreate st op hop,
          fun hfull newId cfg metadata launchOk now => ?_⟩
  exact createInstance_at_capacity st newId cfg metadata launchOk now
    (Nat.le_of_eq hfull.symm)

/-- An empty pool with an admission ceiling of one. -/
def tinyPool : ManagerState := { maxInstances := 1 }

/-- Witness for C2 at the concrete empty pool with ceiling one. -/
theorem admission_ceiling_invariant_witness :
    tinyPool.instances.length ≤ tinyPool.maxInstances ∧
    ((∀ ops : List PoolOp, (applyOps tinyPool ops).instances.length ≤ tinyPool.maxInstances) ∧
     (∀ op : PoolOp, op.isCreate = false →
       (applyOp tinyPool op).instances.length ≤ tinyPool.instances.length) ∧
     (tinyPool.instances.length = tinyPool.maxInstances →
       ∀ (newId : String) (cfg : Option BrowserConfigPartial)
         (metadata : Option String) (launchOk : Bool) (now : Nat),
         createInstance tinyPool newId cfg metadata launchOk now
           = (tinyPool, { success := false,
                          error := some ("Maximum number of instances ("
                            ++ toString tinyPool.maxInstances ++ ") reached") }))) :=
  ⟨by decide, admission_ceiling_invariant tinyPool (by decide)⟩

/-- C4: appending more console entries than the capacity retains
exactly the capacity many most recent entries in append order, and the
buffer length stays within the capacity after every single append. -/
theorem console_ring_retains_most_recent (msgs : List ConsoleLogEntry)
    (h : MAX_CONSOLE_LOG_ENTRIES < msgs.length) :
    msgs.foldl pushConsoleLog []
        = msgs.drop (msgs.length - MAX_CONSOLE_LOG_ENTRIES) ∧
    (msgs.foldl pushConsoleLog []).length = MAX_CONSOLE_LOG_ENTRIES ∧
    ∀ i : Nat,
      ((msgs.take i).foldl pushConsoleLog []).length ≤ MAX_CONSOLE_LOG_ENTRIES := by
  have hfun : pushConsoleLog = pushBounded MAX_CONSOLE_LOG_ENTRIES := rfl
  have hclosed := foldl_pushBounded MAX_CONSOLE_LOG_ENTRIES msgs [] (by simp)
  refine ⟨?_, ?_, ?_⟩
  · rw [hfun, hclosed]
    simp
  · rw [hfun, hclosed]
    simp only [List.length_drop, List.nil_append]
    omega
  · intro i
    rw [hfun]
    exact length_foldl_pushBounded _ _ _ (by simp)

/-- A concrete console entry, indexed by its append position. -/
def mkConsoleEntry (n : Nat) : ConsoleLogEntry :=
  { kind := "log", text := "msg-" ++ toString n, timestamp := n,
    locationUrl := "", locationLine := 0, locationColumn := 0 }

/-- 1005 console entries, five more than the ring capacity. -/
def manyConsoleEntries : List ConsoleLogEntry :=
  (List.range 1005).map mkConsoleEntry

/-- Witness for C4 at a concrete overflowing append sequence. -/
theorem console_ring_retains_most_recent_witness :
    MAX_CONSOLE_LOG_ENTRIES < manyConsoleEntries.length ∧
    (manyConsoleEntries.foldl pushConsoleLog []
        = manyConsoleEntries.drop (manyConsoleEntries.length - MAX_CONSOLE_LOG_ENTRIES) ∧
     (manyConsoleEntries.foldl pushConsoleLog []).length = MAX_CONSOLE_LOG_ENTRIES ∧
     ∀ i : Nat,
       ((manyConsoleEntries.take i).foldl pushConsoleLog []).length
         ≤ MAX_CONSOLE_LOG_ENTRIES) :=
  ⟨by simp [manyConsoleEntries, MAX_CONSOLE_LOG_ENTRIES],
   console_ring_retains_most_recent manyConsoleEntries
     (by simp [manyConsoleEntries, MAX_CONSOLE_LOG_ENTRIES])⟩

/-- A concrete registered session used by the concrete scenarios. -/
def mkInstance (instanceId : String) : BrowserInstance :=
  { id := instanceId, browserHandle := 0, contextHandle := 0, pageHandle := 0,
    createdAt := 0, lastUsed := 0, isActive := true }

/-- A pool holding the single session `a`. -/
def onePool : ManagerState :=
  { maxInstances := 10, instances := [("a", mkInstance "a")] }

/-- A pool holding the two sessions `a` and `b`. -/
def twoPool : ManagerState :=
  { maxInstances := 10,
    instances := [("a", mkInstance "a"), ("b", mkInstance "b")] }

/-- A teardown oracle that fails exactly on session `a`. -/
def failAOnly : String → Bool := fun instanceId => instanceId != "a"

/-- C1 counterexample: when the engine teardown of session `a` fails,
`closeInstance` reports the failure but the registry entry is NOT
removed, contradicting removal regardless of teardown outcome. -/
theorem closeInstance_failure_keeps_entry :
    ((closeInstance onePool (fun _ => false) "a").2.success = false) ∧
    mapGet ((closeInstance onePool (fun _ => false) "a").1).instances "a"
      = some (mkInstance "a") := by decide

/-- C1 (amended): `closeInstance` fails with the not-found error on an
absent id; on a present id it tears the session down, removing the
entry and reporting success only when the teardown completes, while a
teardown failure is reported as an error with the registry entry
retained. -/
theorem closeInstance_behaviour (st : ManagerState) (closeOk : String → Bool)
    (instanceId : String) :
    (mapGet st.instances instanceId = none →
       closeInstance st closeOk instanceId
         = (st, { success := false,
                  error := some ("Instance " ++ instanceId ++ " not found") })) ∧
    (∀ inst, mapGet st.instances instanceId = some inst →
       (closeOk instanceId = true →
          (closeInstance st closeOk instanceId).2
              = { success := true, closed := some true,
                  instanceId := some instanceId } ∧
          mapGet ((closeInstance st closeOk instanceId).1).instances instanceId
            = none) ∧
       (closeOk instanceId = false →
          (closeInstance st closeOk instanceId).2.success = false ∧
          (closeInstance st closeOk instanceId).1 = st)) := by
  unfold closeInstance
  constructor
  · intro h
    rw [h]
  · intro inst h
    rw [h]
    constructor
    · intro hok
      simp [hok, mapGet_mapDelete_self]
    · intro hbad
      simp [hbad]

/-- Witness for C1 at the one-session pool with a completing teardown. -/
theorem closeInstance_behaviour_witness :
    mapGet onePool.instances "a" = some (mkInstance "a") ∧
    ((fun _ => true : String → Bool) "a" = true) ∧
    ((closeInstance onePool (fun _ => true) "a").2
        = { success := true, closed := some true, instanceId := some "a" } ∧
     mapGet ((closeInstance onePool (fun _ => true) "a").1).instances "a" = none) :=
  ⟨by decide, rfl,
   ((closeInstance_behaviour onePool (fun _ => true) "a").2
      (mkInstance "a") (by decide)).1 rfl⟩

/-- C3 counterexample: over the two-session pool with the teardown of
`a` failing, the reported closed-count is the snapshot size 2, while
only one registry entry was actually removed. -/
theorem closeAll_count_is_not_removals :
    (closeAllInstances twoPool failAOnly).2.closedCount = 2 ∧
    twoPool.instances.length
        - ((closeAllInstances twoPool failAOnly).1).instances.length = 1 ∧
    mapGet ((closeAllInstances twoPool failAOnly).1).instances "b" = none ∧
    mapGet ((closeAllInstances twoPool failAOnly).1).instances "a"
      = some (mkInstance "a") ∧
    ¬ ((closeAllInstances twoPool failAOnly).2.closedCount
        = twoPool.instances.length
            - ((closeAllInstances twoPool failAOnly).1).instances.length) := by
  decide

/-- C3 (amended): `closeAllInstances` reports an aggregate success whose
closed-count is the number of sessions registered when the call
started; every session whose own teardown completes is removed from the
registry even when other teardowns fail, and a session whose teardown
fails keeps its registry entry. -/
theorem closeAllInstances_behaviour (st : ManagerState) (closeOk : String → Bool) :
    (closeAllInstances st closeOk).2.success = true ∧
    (closeAllInstances st closeOk).2.closedCount = st.instances.length ∧
    (∀ k, closeOk k = true → k ∈ st.instances.map (fun p => p.1) →
       mapGet ((closeAllInstances st closeOk).1).instances k = none) ∧
    (∀ k, closeOk k = false →
       mapGet ((closeAllInstances st closeOk).1).instances k
         = mapGet st.instances k) := by
  refine ⟨rfl, rfl, ?_, ?_⟩
  · intro k hk hmem
    rw [closeAllInstances_fst]
    exact closeAllFold_get_none closeOk st.instances st k hk (Or.inl hmem)
  · intro k hk
    rw [closeAllInstances_fst]
    exact closeAllFold_get_false closeOk st.instances st k hk

/-- Witness for C3: with `a` failing and `b` succeeding, `b` is removed
and `a` is retained unchanged. -/
theorem closeAllInstances_behaviour_witness :
    failAOnly "b" = true ∧ "b" ∈ twoPool.instances.map (fun p => p.1) ∧
    failAOnly "a" = false ∧
    mapGet ((closeAllInstances twoPool failAOnly).1).instances "b" = none ∧
    mapGet ((closeAllInstances twoPool failAOnly).1).instances "a"
      = mapGet twoPool.instances "a" :=
  ⟨by decide, by decide, by decide,
   (closeAllInstances_behaviour twoPool failAOnly).2.2.1 "b" (by decide) (by decide),
   (closeAllInstances_behaviour twoPool failAOnly).2.2.2 "a" (by decide)⟩

/-- The one-session pool after two lock acquisitions on `a`. -/
def doubleLockPool : ManagerState :=
  ((acquireOperationLock ((acquireOperationLock onePool "a").1) "a").1)

/-- The one-session pool after a single lock acquisition on `a`. -/
def singleLockPool : ManagerState := (acquireOperationLock onePool "a").1

/-- C7 counterexample: with two locks outstanding on `a`, invoking the
release behaviour of one acquisition twice drives the count to 0
instead of leaving it at 1 as a single invocation would, so the release
is not an idempotent decrement. -/
theorem release_twice_not_idempotent :
    lockCount (releaseOperationLock doubleLockPool "a") "a" = 1 ∧
    lockCount (releaseOperationLock (releaseOperationLock doubleLockPool "a") "a") "a"
      = 0 ∧
    ¬ (lockCount (releaseOperationLock (releaseOperationLock doubleLockPool "a") "a") "a"
        = lockCount (releaseOperationLock doubleLockPool "a") "a") := by decide

lemma lockCount_release (st : ManagerState) (instanceId : String) :
    lockCount (releaseOperationLock st instanceId) instanceId
      = lockCount st instanceId - 1 := by
  unfold releaseOperationLock lockCount
  by_cases h : (mapGet st.operationLocks instanceId).getD 0 ≤ 1
  · simp only [h, if_pos]
    rw [mapGet_mapDelete_self]
    simp only [Option.getD_none]
    omega
  · simp only [h, if_neg, not_false_eq_true]
    rw [mapGet_mapSet_self]
    rfl

/-- C7 (amended): each invocation of the release behaviour decrements
the session's lock count by one, truncated at zero, so a second
invocation releases a further outstanding lock; repeating the
invocation is behaviour-preserving exactly in the bounded-at-zero
sense, and is a no-op state-wise only when at most one lock was
outstanding. -/
theorem release_decrements_by_one (st : ManagerState) (instanceId : String) :
    lockCount (releaseOperationLock st instanceId) instanceId
      = lockCount st instanceId - 1 ∧
    lockCount (releaseOperationLock (releaseOperationLock st instanceId) instanceId)
        instanceId
      = lockCount st instanceId - 2 ∧
    (lockCount st instanceId ≤ 1 →
      releaseOperationLock (releaseOperationLock st instanceId) instanceId
        = releaseOperationLock st instanceId) := by
  refine ⟨lockCount_release st instanceId, ?_, ?_⟩
  · rw [lockCount_release, lockCount_release]
    omega
  · intro h
    have h1 : releaseOperationLock st instanceId
        = { st with operationLocks := mapDelete st.operationLocks instanceId } := by
      unfold releaseOperationLock
      unfold lockCount at h
      simp [h]
    rw [h1]
    unfold releaseOperationLock
    simp [mapGet_mapDelete_self, mapDelete_idem]

/-- Witness for C7 at the single-lock pool, where the double invocation
is harmless. -/
theorem release_decrements_by_one_witness :
    lockCount singleLockPool "a" ≤ 1 ∧
    releaseOperationLock (releaseOperationLock singleLockPool "a") "a"
      = releaseOperationLock singleLockPool "a" :=
  ⟨by decide, (release_decrements_by_one singleLockPool "a").2.2 (by decide)⟩

lemma getProxyFromEnv_http (env : EnvVars) (h : jsTruthy env.HTTP_PROXY = true) :
    getProxyFromEnv env = env.HTTP_PROXY := by
  unfold getProxyFromEnv jsOr
  simp [h]

lemma getProxyFromEnv_https (env : EnvVars)
    (h1 : jsTruthy env.HTTP_PROXY = false) (h2 : jsTruthy env.http_proxy = false)
    (h3 : jsTruthy env.HTTPS_PROXY = true) :
    getProxyFromEnv env = env.HTTPS_PROXY := by
  unfold getProxyFromEnv jsOr
  simp [h1, h2, h3]

lemma getProxyFromEnv_all (env : EnvVars)
    (h1 : jsTruthy env.HTTP_PROXY = false) (h2 : jsTruthy env.http_proxy = false)
    (h3 : jsTruthy env.HTTPS_PROXY = false) (h4 : jsTruthy env.https_proxy = false)
    (h5 : jsTruthy env.ALL_PROXY = true) :
    getProxyFromEnv env = env.ALL_PROXY := by
  unfold getProxyFromEnv jsOr
  simp [h1, h2, h3, h4, h5]

/-- C5: proxy resolution priority — an explicit per-session server
always wins; per-session `autoDetect := false` with no explicit server
yields no proxy whatever was detected; the environment variables are
consulted HTTP-style first, then HTTPS-style, then catch-all; and with
auto-detection enabled everywhere and no explicit server the HTTP-style
environment value is the effective proxy verbatim. -/
theorem proxy_resolution_priority :
    (∀ (detected : Option String) (cfg : Option BrowserConfigPartial),
        jsTruthy ((cfg.bind (fun c => c.proxy)).bind (fun p => p.server)) = true →
        getEffectiveProxy detected cfg
          = (cfg.bind (fun c => c.proxy)).bind (fun p => p.server)) ∧
    (∀ (detected : Option String) (cfg : Option BrowserConfigPartial),
        jsTruthy ((cfg.bind (fun c => c.proxy)).bind (fun p => p.server)) = false →
        (cfg.bind (fun c => c.proxy)).bind (fun p => p.autoDetect) = some false →
        getEffectiveProxy detected cfg = none) ∧
    (∀ env : EnvVars, jsTruthy env.HTTP_PROXY = true →
        getProxyFromEnv env = env.HTTP_PROXY) ∧
    (∀ env : EnvVars,
        jsTruthy env.HTTP_PROXY = false → jsTruthy env.http_proxy = false →
        jsTruthy env.HTTPS_PROXY = true →
        getProxyFromEnv env = env.HTTPS_PROXY) ∧
    (∀ env : EnvVars,
        jsTruthy env.HTTP_PROXY = false → jsTruthy env.http_proxy = false →
        jsTruthy env.HTTPS_PROXY = false → jsTruthy env.https_proxy = false →
        jsTruthy env.ALL_PROXY = true →
        getProxyFromEnv env = env.ALL_PROXY) ∧
    (∀ (gp : Option ProxyConfig) (env : EnvVars) (darwin : Bool)
        (sysProxy : Option String) (cfg : Option BrowserConfigPartial),
        jsTruthy (gp.bind (fun p => p.server)) = false →
        ¬ (gp.bind (fun p => p.autoDetect) = some false) →
        jsTruthy ((cfg.bind (fun c => c.proxy)).bind (fun p => p.server)) = false →
        ¬ ((cfg.bind (fun c => c.proxy)).bind (fun p => p.autoDetect) = some false) →
        jsTruthy env.HTTP_PROXY = true →
        getEffectiveProxy (initializeProxy gp env darwin sysProxy) cfg
          = env.HTTP_PROXY) := by
  refine ⟨?_, ?_, getProxyFromEnv_http, getProxyFromEnv_https, getProxyFromEnv_all, ?_⟩
  · intro detected cfg h
    unfold getEffectiveProxy
    simp [h]
  · intro detected cfg h1 h2
    unfold getEffectiveProxy
    simp [h1, h2]
  · intro gp env darwin sysProxy cfg hg1 hg2 hc1 hc2 henv
    have hdet : initializeProxy gp env darwin sysProxy = env.HTTP_PROXY := by
      unfold initializeProxy detectLocalProxy
      rw [getProxyFromEnv_http env henv]
      simp [hg1, hg2, henv]
    unfold getEffectiveProxy
    simp [hc1, hc2, hdet]

/-- Environment with every proxy variable set to a distinct value. -/
def envAllSet : EnvVars :=
  { HTTP_PROXY := some "http://envproxy:8080",
    http_proxy := some "http://lower:1",
    HTTPS_PROXY := some "http://secure:2",
    https_proxy := some "http://securelower:3",
    ALL_PROXY := some "http://all:4",
    all_proxy := some "http://alllower:5" }

/-- Per-session config carrying an explicit proxy server. -/
def cfgExplicitServer : Option BrowserConfigPartial :=
  some { proxy := some { server := some "http://explicit:3" } }

/-- Per-session config disabling proxy auto-detection. -/
def cfgNoDetect : Option BrowserConfigPartial :=
  some { proxy := some { autoDetect := some false } }

/-- Witness for C5: the explicit server wins over a detected proxy, the
disable flag suppresses a detected proxy, the precedence lemmas hold on
a fully-populated environment, and the end-to-end resolution returns
the `HTTP_PROXY` value verbatim. -/
theorem proxy_resolution_priority_witness :
    (jsTruthy ((cfgExplicitServer.bind (fun c => c.proxy)).bind (fun p => p.server))
        = true ∧
     getEffectiveProxy (some "http://auto:9") cfgExplicitServer
        = (cfgExplicitServer.bind (fun c => c.proxy)).bind (fun p => p.server)) ∧
    (jsTruthy ((cfgNoDetect.bind (fun c => c.proxy)).bind (fun p => p.server))
        = false ∧
     (cfgNoDetect.bind (fun c => c.proxy)).bind (fun p => p.autoDetect) = some false ∧
     getEffectiveProxy (some "http://auto:9") cfgNoDetect = none) ∧
    (jsTruthy envAllSet.HTTP_PROXY = true ∧
     getProxyFromEnv envAllSet = envAllSet.HTTP_PROXY) ∧
    (getEffectiveProxy (initializeProxy none envAllSet false none) none
        = envAllSet.HTTP_PROXY) :=
  ⟨⟨by decide,
    proxy_resolution_priority.1 (some "http://auto:9") cfgExplicitServer (by decide)⟩,
   ⟨by decide, by decide,
    proxy_resolution_priority.2.1 (some "http://auto:9") cfgNoDetect
      (by decide) (by decide)⟩,
   ⟨by decide, proxy_resolution_priority.2.2.1 envAllSet (by decide)⟩,
   proxy_resolution_priority.2.2.2.2.2 none envAllSet false none none
     (by decide) (by decide) (by decide) (by decide) (by decide)⟩

lemma foldl_overwrite_eq_getLast (p : α → Bool) (l : List α) :
    ∀ init : Option α,
      l.foldl (fun acc e => if p e then some e else acc) init
        = ((l.filter p).getLast?).or init := by
  induction l with
  | nil => intro init; rfl
  | cons a l ih =>
      intro init
      rw [List.foldl_cons, ih]
      by_cases hpa : p a
      · rw [List.filter_cons_of_pos hpa, if_pos hpa]
        cases hf : l.filter p with
        | nil => simp [hf]
        | cons b bs =>
            obtain ⟨x, hx⟩ := Option.isSome_iff_exists.mp
              (List.getLast?_isSome.mpr (List.cons_ne_nil b bs))
            rw [List.getLast?_cons_cons, hx]
            simp [Option.or]
      · rw [List.filter_cons_of_neg hpa, if_neg hpa]

/-- The entry the claim designates as the winner: scan the session's
network events in global append order (across both rings) and keep
overwriting the candidate, so the most recently appended matching entry
with a cached body survives.  Stated from the spec's words, for
comparison with what `getResponseBody` computes. -/
def lastAppendedMatch (events : List NetworkLogEntry) (method url : String) :
    Option NetworkLogEntry :=
  events.foldl (fun acc e => if bodyMatch method url e then some e else acc) none

/-- An asset-kind response carrying a cached body, appended first. -/
def assetHit : NetworkLogEntry :=
  { url := "https://x/a", method := "GET", resourceType := "document",
    status := some 200, timestamp := 1, cachedBody := some "asset-body" }

/-- An API-kind response for the same method and URL, appended second. -/
def apiHit : NetworkLogEntry :=
  { url := "https://x/a", method := "GET", resourceType := "xhr",
    status := some 200, timestamp := 2, cachedBody := some "api-body" }

/-- The global append order of the two responses. -/
def crossEvents : List NetworkLogEntry := [assetHit, apiHit]

/-- The session after routing the two responses into its rings. -/
def crossInstance : BrowserInstance :=
  crossEvents.foldl routeNetworkEvent (mkInstance "a")

/-- A pool holding that session. -/
def crossPool : ManagerState :=
  { maxInstances := 10, instances := [("a", crossInstance)] }

/-- C6 counterexample: with one match in each ring, `getResponseBody`
returns the asset ring's body because it is scanned last, even though
the API-ring entry was appended more recently; the most recently
appended match does not win across the two buffers. -/
theorem getResponseBody_not_most_recent :
    (getResponseBody crossPool "a" "GET" "https://x/a").2.body = some "asset-body" ∧
    (lastAppendedMatch crossEvents "GET" "https://x/a").bind (fun e => e.cachedBody)
      = some "api-body" ∧
    ¬ ((getResponseBody crossPool "a" "GET" "https://x/a").2.body
        = (lastAppendedMatch crossEvents "GET" "https://x/a").bind
            (fun e => e.cachedBody)) := by decide

/-- C6 (amended): `getResponseBody` always succeeds; with no matching
cached-body entry in either ring it reports `found := false`; otherwise
it returns the cached body of the last match in the scan order API ring
then asset ring (each in its own append order) — within that
concatenated order, the latest match wins. -/
theorem getResponseBody_behaviour (st : ManagerState)
    (instanceId method url : String) (inst : BrowserInstance)
    (h : mapGet st.instances instanceId = some inst) :
    (getResponseBody st instanceId method url).2.success = true ∧
    ((inst.networkApiLogs ++ inst.networkAssetLogs).filter (bodyMatch method url)
        = [] →
      (getResponseBody st instanceId method url).2.found = some false ∧
      (getResponseBody st instanceId method url).2.body = none) ∧
    (∀ e, ((inst.networkApiLogs ++ inst.networkAssetLogs).filter
            (bodyMatch method url)).getLast? = some e →
      (getResponseBody st instanceId method url).2.found = some true ∧
      (getResponseBody st instanceId method url).2.body = e.cachedBody) := by
  have hfold := foldl_overwrite_eq_getLast (bodyMatch method url)
    (inst.networkApiLogs ++ inst.networkAssetLogs) (none : Option NetworkLogEntry)
  refine ⟨?_, ?_, ?_⟩
  · simp only [getResponseBody, h, hfold]
    cases hf : ((inst.networkApiLogs ++ inst.networkAssetLogs).filter
        (bodyMatch method url)).getLast? <;> simp [hf, Option.or]
  · intro hempty
    simp only [getResponseBody, h, hfold, hempty]
    simp [Option.or]
  · intro e he
    simp only [getResponseBody, h, hfold, he]
    simp [Option.or]

/-- Witness for C6 at the two-ring session: the last match in scan
order is the asset entry and its body is returned with `found := true`. -/
theorem getResponseBody_behaviour_witness :
    mapGet crossPool.instances "a" = some crossInstance ∧
    ((crossInstance.networkApiLogs ++ crossInstance.networkAssetLogs).filter
        (bodyMatch "GET" "https://x/a")).getLast? = some assetHit ∧
    ((getResponseBody crossPool "a" "GET" "https://x/a").2.found = some true ∧
     (getResponseBody crossPool "a" "GET" "https://x/a").2.body
       = assetHit.cachedBody) :=
  ⟨by decide, by decide,
   (getResponseBody_behaviour crossPool "a" "GET" "https://x/a" crossInstance
      (by decide)).2.2 assetHit (by decide)⟩

/-- C8: with `clear` set, `getConsoleLogs` answers from the snapshot
taken before the buffer is emptied — the returned logs equal those of
the same call without `clear` and the total is the pre-clear length —
and any immediately following `getConsoleLogs` on the same session
returns zero entries. -/
theorem getConsoleLogs_clear_snapshot (st : ManagerState) (instanceId : String)
    (options : ConsoleLogsOptions) (inst : BrowserInstance)
    (h : mapGet st.instances instanceId = some inst)
    (hne : ¬ inst.consoleLogs = [])
    (hclear : options.clear = some true) :
    (getConsoleLogs st instanceId options).2.logs
        = (getConsoleLogs st instanceId { options with clear := some false }).2.logs ∧
    (getConsoleLogs st instanceId options).2.totalEntries
        = inst.consoleLogs.length ∧
    ∀ options2 : ConsoleLogsOptions,
      (getConsoleLogs (getConsoleLogs st instanceId options).1 instanceId
          options2).2.logs = [] ∧
      (getConsoleLogs (getConsoleLogs st instanceId options).1 instanceId
          options2).2.totalEntries = 0 ∧
      (getConsoleLogs (getConsoleLogs st instanceId options).1 instanceId
          options2).2.returnedEntries = 0 := by
  have hcleared : (getConsoleLogs st instanceId options).1
      = updateInstance st instanceId (fun i => { i with consoleLogs := [] }) := by
    simp only [getConsoleLogs, h, hclear]
    simp
  have hget2 : mapGet ((getConsoleLogs st instanceId options).1).instances instanceId
      = some { inst with consoleLogs := [] } := by
    rw [hcleared, mapGet_updateInstance, if_pos rfl, h]
    rfl
  have hget2' : mapGet (updateInstance st instanceId
      (fun i => { i with consoleLogs := [] })).instances instanceId
      = some { inst with consoleLogs := [] } := by
    rw [mapGet_updateInstance, if_pos rfl, h]
    rfl
  refine ⟨?_, ?_, ?_⟩
  · simp only [getConsoleLogs, h, hclear]
  · simp only [getConsoleLogs, h, hclear]
  · intro options2
    rw [hcleared]
    simp only [getConsoleLogs, hget2']
    cases hk : options2.kind <;> cases hl : options2.limit <;>
      simp [jsTruthy]

/-- A pool whose session `a` holds three console entries. -/
def consolePool : ManagerState :=
  { maxInstances := 10,
    instances := [("a",
      { mkInstance "a" with
          consoleLogs := [mkConsoleEntry 0, mkConsoleEntry 1, mkConsoleEntry 2] })] }

/-- Witness for C8 at the three-entry pool with a bare clear request. -/
theorem getConsoleLogs_clear_snapshot_witness :
    (mapGet consolePool.instances "a").isSome = true ∧
    ((getConsoleLogs consolePool "a" { clear := some true }).2.totalEntries = 3 ∧
     (getConsoleLogs (getConsoleLogs consolePool "a" { clear := some true }).1 "a"
        { }).2.returnedEntries = 0) := by
  refine ⟨by decide, ?_, ?_⟩
  · have := (getConsoleLogs_clear_snapshot consolePool "a" { clear := some true }
      ({ mkInstance "a" with
          consoleLogs := [mkConsoleEntry 0, mkConsoleEntry 1, mkConsoleEntry 2] })
      (by decide) (by decide) rfl).2.1
    rw [this]
    decide
  · exact ((getConsoleLogs_clear_snapshot consolePool "a" { clear := some true }
      ({ mkInstance "a" with
          consoleLogs := [mkConsoleEntry 0, mkConsoleEntry 1, mkConsoleEntry 2] })
      (by decide) (by decide) rfl).2.2 { }).2.2

/-- C9: a navigation request whose URL scheme is neither `http` nor
`https` is rejected with the invalid-URL error before the engine is
called, leaving the whole pool state unchanged. -/
theorem navigate_rejects_non_http (st : ManagerState) (instanceId url : String)
    (navOk : Bool) (now : Nat) (p : String)
    (hp : parseProtocol url = some p) (h1 : ¬ p = "http:") (h2 : ¬ p = "https:") :
    navigate st instanceId url navOk now
      = (st, { success := false,
               error := some ("Invalid URL: " ++ ("Unsupported URL protocol: " ++ p
                 ++ " — only http: and https: are allowed")) }, false) := by
  unfold navigate validateUrl
  rw [hp]
  simp [h1, h2]

/-- Witness for C9: a file-scheme URL is rejected with the pool left
untouched and no engine call made. -/
theorem navigate_rejects_non_http_witness :
    parseProtocol "file:///etc/passwd" = some "file:" ∧
    ¬ ("file:" = "http:") ∧ ¬ ("file:" = "https:") ∧
    navigate onePool "a" "file:///etc/passwd" true 5
      = (onePool, { success := false,
                    error := some ("Invalid URL: " ++ ("Unsupported URL protocol: "
                      ++ "file:" ++ " — only http: and https: are allowed")) }, false) :=
  ⟨by decide, by decide, by decide,
   navigate_rejects_non_http onePool "a" "file:///etc/passwd" true 5 "file:"
     (by decide) (by decide) (by decide)⟩

/-- Agreement on every session field other than the three log rings. -/
def sameExceptLogBuffers (a b : BrowserInstance) : Prop :=
  b.id = a.id ∧ b.browserHandle = a.browserHandle ∧
  b.contextHandle = a.contextHandle ∧ b.pageHandle = a.pageHandle ∧
  b.createdAt = a.createdAt ∧ b.lastUsed = a.lastUsed ∧
  b.isActive = a.isActive ∧ b.metadata = a.metadata

lemma sameExceptLogBuffers_refl (a : BrowserInstance) : sameExceptLogBuffers a a :=
  ⟨rfl, rfl, rfl, rfl, rfl, rfl, rfl, rfl⟩

/-- C10: the three log-retrieval operations leave `lastUsed` and every
other non-buffer field of every registered session unchanged
(`getResponseBody` leaves the whole state unchanged), while a fetch via
`getInstance` is what refreshes `lastUsed`. -/
theorem log_retrieval_preserves_freshness (st : ManagerState) (j : String)
    (inst : BrowserInstance) (h : mapGet st.instances j = some inst) :
    (∀ (instanceId : String) (options : ConsoleLogsOptions),
       ∃ inst2,
         mapGet ((getConsoleLogs st instanceId options).1).instances j = some inst2 ∧
         sameExceptLogBuffers inst inst2) ∧
    (∀ (instanceId : String) (options : NetworkLogsOptions),
       ∃ inst2,
         mapGet ((getNetworkLogs st instanceId options).1).instances j = some inst2 ∧
         sameExceptLogBuffers inst inst2) ∧
    (∀ instanceId method url : String,
       (getResponseBody st instanceId method url).1 = st) ∧
    (∀ now : Nat,
       mapGet ((getInstance st j now).1).instances j
         = some { inst with lastUsed := now }) := by
  refine ⟨?_, ?_, ?_, ?_⟩
  · intro instanceId options
    rcases getConsoleLogs_fst st instanceId options with hf | hf <;> rw [hf]
    · exact ⟨inst, h, sameExceptLogBuffers_refl inst⟩
    · rw [mapGet_updateInstance]
      by_cases hj : j = instanceId
      · rw [if_pos hj, h]
        exact ⟨{ inst with consoleLogs := [] }, rfl,
          ⟨rfl, rfl, rfl, rfl, rfl, rfl, rfl, rfl⟩⟩
      · rw [if_neg hj, h]
        exact ⟨inst, rfl, sameExceptLogBuffers_refl inst⟩
  · intro instanceId options
    rcases getNetworkLogs_fst st instanceId options with hf | hf <;> rw [hf]
    · exact ⟨inst, h, sameExceptLogBuffers_refl inst⟩
    · rw [mapGet_updateInstance]
      by_cases hj : j = instanceId
      · rw [if_pos hj, h]
        by_cases ha : options.includeAssets = some true
        · refine ⟨_, rfl, ?_⟩
          simp only [ha, if_pos]
          exact ⟨rfl, rfl, rfl, rfl, rfl, rfl, rfl, rfl⟩
        · refine ⟨_, rfl, ?_⟩
          simp only [ha, if_neg, not_false_eq_true]
          exact ⟨rfl, rfl, rfl, rfl, rfl, rfl, rfl, rfl⟩
      · rw [if_neg hj, h]
        exact ⟨inst, rfl, sameExceptLogBuffers_refl inst⟩
  · intro instanceId method url
    exact getResponseBody_fst st instanceId method url
  · intro now
    unfold getInstance
    rw [h]
    simp only []
    rw [mapGet_updateInstance, if_pos rfl, h]
    rfl

/-- Witness for C10 at the two-session pool: polling console logs with
a clear leaves `lastUsed` of `a` unchanged while a fetch sets it. -/
theorem log_retrieval_preserves_freshness_witness :
    mapGet twoPool.instances "a" = some (mkInstance "a") ∧
    (∃ inst2,
       mapGet ((getConsoleLogs twoPool "a" { clear := some true }).1).instances "a"
         = some inst2 ∧
       sameExceptLogBuffers (mkInstance "a") inst2) ∧
    mapGet ((getInstance twoPool "a" 42).1).instances "a"
      = some { mkInstance "a" with lastUsed := 42 } :=
  ⟨by decide,
   (log_retrieval_preserves_freshness twoPool "a" (mkInstance "a") (by decide)).1
     "a" { clear := some true },
   (log_retrieval_preserves_freshness twoPool "a" (mkInstance "a") (by decide)).2.2.2 42⟩

end ConcurrentBrowser
